import Mathlib

/-
Verification of the pacparser-rs PAC-evaluation library against its design
specification. The definitions below are a shallow embedding of
src/src/lib.rs: strings are modelled as lists of characters, the external
collaborators (the JS engine, DNS resolution, regex compilation) are
modelled as explicit parameters, and Rust panics (assert!, unreachable!,
todo!) are modelled by an explicit constructor of the result type, distinct
from the typed errors the library returns.

Caveat on whitespace: Rust's str::trim strips the full Unicode White_Space
set; Char.isWhitespace here covers its ASCII subset (space, tab, CR, LF),
which is faithful for every string free of exotic Unicode whitespace.
-/

namespace Pacparser

/-- Strings are modelled as lists of characters (Rust operates on byte
indices, but every operation used splits around a found character, so the
character-level model produces the same fragments). -/
abbrev Str := List Char

/-- Rust str::trim, both ends (see the whitespace caveat above). -/
def trim (s : Str) : Str :=
  ((s.dropWhile Char.isWhitespace).reverse.dropWhile Char.isWhitespace).reverse

/-- Rust str::split(';'): splits into the (possibly empty) fragments between
semicolons; the empty string yields one empty fragment, a trailing semicolon
yields a trailing empty fragment. -/
def splitSemi : Str → List Str
  | [] => [[]]
  | c :: rest =>
    if c = ';' then [] :: splitSemi rest
    else
      match splitSemi rest with
      | [] => [[c]]
      | s :: ss => (c :: s) :: ss

/-- Rust str::strip (prefix removal): some remainder when the first argument
prefixes the second, none otherwise. -/
def stripPfx : Str → Str → Option Str
  | [], s => some s
  | _ :: _, [] => none
  | p :: ps, c :: cs => if p = c then stripPfx ps cs else none

/-- The library's error enum (src/src/lib.rs lines 34-44). -/
inductive Error where
  | JsError (msg : String)
  | MalformedProxyEntry (reason : String)
  | InvalidPacReturn
  | NoHost
deriving DecidableEq, Repr

/-- Proxy type tokens (src/src/lib.rs lines 48-56). -/
inductive ProxyType where
  | Proxy
  | Socks
  | Http
  | Https
  | Socks4
  | Socks5
deriving DecidableEq, Repr

/-- A decoded proxy directive (src/src/lib.rs lines 58-66). -/
inductive ProxyEntry where
  | Direct
  | Proxied (ty : ProxyType) (host : Str) (port : Str)
deriving DecidableEq, Repr

/-- ProxyType::from_str (src/src/lib.rs lines 68-82). -/
def ProxyType.fromStr (s : Str) : Except Error ProxyType :=
  if s = ("PROXY").data then .ok .Proxy
  else if s = ("SOCKS").data then .ok .Socks
  else if s = ("HTTP").data then .ok .Http
  else if s = ("HTTPS").data then .ok .Https
  else if s = ("SOCKS4").data then .ok .Socks4
  else if s = ("SOCKS5").data then .ok .Socks5
  else .error (.MalformedProxyEntry ("Unknown type " ++ String.mk s))

/-- Outcome of running a piece of Rust code: a process-aborting panic
(assert!/unreachable!/todo!), a returned error of type ε, or a normal
result. -/
inductive Res (ε α : Type) where
  | panic (msg : String)
  | error (e : ε)
  | ok (v : α)
deriving DecidableEq, Repr

/-- True exactly on a normal result. -/
def Res.isOk {ε α : Type} : Res ε α → Bool
  | .ok _ => true
  | _ => false

/-- True exactly on a returned (typed) error - not on a panic. -/
def Res.isError {ε α : Type} : Res ε α → Bool
  | .error _ => true
  | _ => false

/-- The normal result, when there is one. -/
def Res.toOption {ε α : Type} : Res ε α → Option α
  | .ok v => some v
  | _ => none

/-- The fixed token scan order of the decoder (src/src/lib.rs line 274):
the source iterates this array front to back, so SOCKS is tried before
SOCKS4 and SOCKS5, and HTTP before HTTPS. -/
def typeTokens : List Str :=
  [("PROXY").data, ("SOCKS").data, ("HTTP").data, ("HTTPS").data,
   ("SOCKS4").data, ("SOCKS5").data]

/-- The token-scanning loop of PacFile::find_proxy (src/src/lib.rs lines
275-289): the first token that prefixes the segment wins; the trimmed
remainder must contain a colon separating host from port; the character
after the colon onwards is the port. -/
def findType (part : Str) : List Str → Res Error ProxyEntry
  | [] => .error (.MalformedProxyEntry "No type matched")
  | ty :: rest =>
    match stripPfx ty part with
    | none => findType part rest
    | some afterTok =>
      let proxy := trim afterTok
      match proxy.findIdx? (fun c => c == ':') with
      | none => .error (.MalformedProxyEntry "No colon in entry")
      | some colon =>
        let q := trim proxy
        match ProxyType.fromStr ty with
        | .error e => .error e
        | .ok t => .ok (.Proxied t (q.take colon) ((q.drop colon).drop 1))

/-- Decoding of one trimmed segment (the closure of src/src/lib.rs lines
268-290). A segment prefixed by DIRECT with trailing non-whitespace hits
assert! and panics; otherwise the token scan runs. -/
def decodeSegment (rawPart : Str) : Res Error ProxyEntry :=
  let part := trim rawPart
  match stripPfx ("DIRECT").data part with
  | some x =>
    if (trim x).isEmpty then .ok .Direct
    else .panic "DIRECT with host is not supported"
  | none => findType part typeTokens

/-- The collect() over the segment iterator: the first panic or error ends
the whole decode with no partial list. -/
def decodeAll : List Str → Res Error (List ProxyEntry)
  | [] => .ok []
  | s :: rest =>
    match decodeSegment s with
    | .panic m => .panic m
    | .error e => .error e
    | .ok v =>
      match decodeAll rest with
      | .panic m => .panic m
      | .error e => .error e
      | .ok vs => .ok (v :: vs)

/-- The proxy directive decoder of PacFile::find_proxy (src/src/lib.rs
lines 266-292): split the returned string on semicolons and decode each
segment in order. -/
def decode (s : Str) : Res Error (List ProxyEntry) :=
  decodeAll (splitSemi s)

/-- Rust str::ends_with, as the standard library implements it: the needle is
no longer than the haystack and equals its final slice. -/
def rustEndsWith (s suffix : Str) : Bool :=
  decide (suffix.length ≤ s.length) && s.drop (s.length - suffix.length) == suffix

/-- A script-side value, as far as the host functions inspect one: a string,
a boolean, or anything else (booleans are what the bridge produces; the
to_string conversion the bridge performs is total on these shapes). -/
inductive JsVal where
  | str (s : Str)
  | bool (b : Bool)
  | undefined
deriving DecidableEq, Repr

/-- JsValue::to_string as the host functions use it (boa stringifies
booleans and undefined to their keyword spelling). -/
def JsVal.toStr : JsVal → Str
  | .str s => s
  | .bool true => ("true").data
  | .bool false => ("false").data
  | .undefined => ("undefined").data

/-- JsValue::as_string: only an actual string answers. -/
def JsVal.asString : JsVal → Option Str
  | .str s => some s
  | _ => none

/-- The dnsDomainIs host function (src/src/lib.rs lines 84-93): with two
arguments it string-converts both and tests ends_with; any other argument
count hits unreachable! and panics. A thrown script-level error is the
String error of the result. -/
def dns_domain_is (args : List JsVal) : Res String JsVal :=
  match args with
  | [a, b] => .ok (.bool (rustEndsWith a.toStr b.toStr))
  | _ => .panic "internal error: entered unreachable code: expected two arguments"

/-- A resolved address, as far as the bridge inspects one: the IPv4 octets,
or an IPv6 address carried by its textual form (only its tag matters to the
code modelled here). -/
inductive IpAddr where
  | v4 (a b c d : Nat)
  | v6 (txt : Str)
deriving DecidableEq, Repr

/-- IpAddr::is_ipv4. -/
def IpAddr.isIpv4 : IpAddr → Bool
  | .v4 _ _ _ _ => true
  | .v6 _ => false

/-- Display of an address (dotted quad for IPv4; the carried text for the
IPv6 model). -/
def IpAddr.display : IpAddr → Str
  | .v4 a b c d =>
    (Nat.repr a).data ++ (".").data ++ (Nat.repr b).data ++ (".").data
      ++ (Nat.repr c).data ++ (".").data ++ (Nat.repr d).data
  | .v6 t => t

/-- The dnsResolve host function (src/src/lib.rs lines 142-157). The
external collaborator dns_lookup::lookup_host is passed in as the outcome
of resolving the (string-converted) single argument. A lookup failure is
rethrown as a script-level "dns error"; a lookup with no IPv4 result hits
todo! and panics; any argument count other than one hits unreachable! and
panics. -/
def dns_resolve (args : List JsVal) (lookup : Except String (List IpAddr)) :
    Res String JsVal :=
  match args with
  | [_name] =>
    match lookup with
    | .error err => .error ("dns error: " ++ err)
    | .ok ips =>
      match ips.find? IpAddr.isIpv4 with
      | none => .panic "not yet implemented: handle ipv6"
      | some ip => .ok (.str ip.display)
  | _ => .panic "internal error: entered unreachable code: expected one argument"

/-- A compiled matcher (the regex::Regex collaborator), reduced to the one
capability the cache consults: is_match. -/
structure Matcher where
  isMatch : Str → Bool

/-- The regex compilation collaborator: Regex::new, which may fail. -/
structure RegexEngine where
  compile : Str → Except String Matcher

/-- The anchored pattern text the cache compiles on a miss
(format! with a leading caret and trailing dollar, src/src/lib.rs line 186). -/
def anchored (pat : Str) : Str :=
  ("^").data ++ pat ++ ("$").data

/-- The regex memoization cache (src/src/lib.rs lines 176-180): a
HashMap from raw pattern text to compiled matcher, modelled as an
association list whose keys are pairwise distinct. -/
structure RegexCache where
  cache : List (Str × Matcher)

/-- HashMap::get by key. -/
def RegexCache.get (c : RegexCache) (k : Str) : Option Matcher :=
  (c.cache.find? (fun p => p.fst == k)).map Prod.snd

/-- HashMap::insert; in the source it runs only right after a miss on the
same key, so a fresh binding is appended. -/
def RegexCache.insertKV (c : RegexCache) (k : Str) (m : Matcher) : RegexCache :=
  ⟨c.cache ++ [(k, m)]⟩

/-- How many cache entries carry the given key. -/
def RegexCache.countKey (c : RegexCache) (k : Str) : Nat :=
  (c.cache.map Prod.fst).count k

/-- RegexCache::matches (src/src/lib.rs lines 182-195): on a miss, compile
the pattern anchored at both ends, test, then insert under the raw pattern
text; on a hit, reuse the compiled matcher. A compile failure is rethrown
as a script-level "regex error" and the cache is left untouched. The
returned pair carries the updated cache (the method mutates self). -/
def RegexCache.matches (eng : RegexEngine) (c : RegexCache) (str pat : Str) :
    Except String (Bool × RegexCache) :=
  match c.get pat with
  | none =>
    match eng.compile (anchored pat) with
    | .error err => .error ("regex error: " ++ err)
    | .ok re => .ok (re.isMatch str, c.insertKV pat re)
  | some re => .ok (re.isMatch str, c)

/-- The cache an invocation of matches leaves behind (unchanged when the
invocation threw). -/
def afterCache (c : RegexCache) (r : Except String (Bool × RegexCache)) : RegexCache :=
  match r with
  | .ok (_, c2) => c2
  | .error _ => c

/-- The boolean a matches invocation reports, error preserved. -/
def resBool (r : Except String (Bool × RegexCache)) : Except String Bool :=
  r.map Prod.fst

/-- Two successive shExpMatch evaluations with the same subject and pattern
against one cache: the two reported results and the final cache. -/
def twoCalls (eng : RegexEngine) (c0 : RegexCache) (str pat : Str) :
    Except String Bool × Except String Bool × RegexCache :=
  let r1 := RegexCache.matches eng c0 str pat
  let c1 := afterCache c0 r1
  let r2 := RegexCache.matches eng c1 str pat
  (resBool r1, resBool r2, afterCache c1 r2)

/-- A request URL, as far as find_proxy inspects one: url.host_str() and
url.as_str() of the url::Url collaborator. -/
structure UrlModel where
  hostStr : Option Str
  asStr : Str

/-- The script-engine collaborators PacFile::find_proxy consults after the
host check: the global lookup of the driver (its to_string-converted
failure modelled by the Except), whether the looked-up value is callable,
and the invocation of the driver on (url text, host text). -/
structure JsCtx where
  getPacResult : Except String JsVal
  pacCallable : Bool
  callPac : Str → Str → Except String JsVal

/-- PacFile::find_proxy (src/src/lib.rs lines 243-293). The second
component of the result records every driver invocation made (its
argument pair), so an empty log means the script was never entered and
script state is untouched. A non-callable driver hits expect and panics;
a non-string driver result is InvalidPacReturn; a string result is fed to
the decoder. -/
def find_proxy (ctx : JsCtx) (url : UrlModel) :
    Res Error (List ProxyEntry) × List (Str × Str) :=
  match url.hostStr with
  | none => (.error .NoHost, [])
  | some host =>
    match ctx.getPacResult with
    | .error e => (.error (.JsError e), [])
    | .ok _pac =>
      if ctx.pacCallable then
        match ctx.callPac url.asStr host with
        | .error e => (.error (.JsError e), [(url.asStr, host)])
        | .ok ret =>
          match ret.asString with
          | none => (.error .InvalidPacReturn, [(url.asStr, host)])
          | some s => (decode s, [(url.asStr, host)])
      else (.panic "pac should be callable", [])

/-- Modelled from the spec: the singleton-mode engine guard. The
pacparser-sys-backed engine wrapper this repository builds (pacparser-sys/
build.rs) and uses (examples/resolver.rs calls PacParser::new, load_path
and decode_proxy of that API) is not among the source files; per the spec,
its create() acquires a process-wide atomic in-use flag, fails with InUse
while the flag is held, and the flag is released when the Engine is
discarded. -/
structure EngineSlot where
  inUse : Bool
deriving DecidableEq, Repr

/-- Modelled from the spec: the outcome of create() in singleton mode -
an engine handle, or the InUse error. -/
inductive CreateOutcome where
  | engine
  | inUseErr
deriving DecidableEq, Repr

/-- Modelled from the spec: create() claims the flag if it is free. -/
def createEngine (s : EngineSlot) : CreateOutcome × EngineSlot :=
  if s.inUse then (.inUseErr, s) else (.engine, ⟨true⟩)

/-- Modelled from the spec: discarding the engine releases the flag. -/
def releaseEngine (_ : EngineSlot) : EngineSlot := ⟨false⟩

/-- A concrete regex collaborator used to evaluate the cache theorems on an
input: the compiled matcher of a pattern accepts exactly the pattern text. -/
def litEngine : RegexEngine :=
  ⟨fun p => .ok ⟨fun s => s == p⟩⟩

/-- The empty wildcard cache. -/
def emptyCache : RegexCache := ⟨[]⟩

/-- A concrete script-engine stub used to evaluate find_proxy theorems on an
input: the driver exists, is callable, and always returns "DIRECT". -/
def stubCtx : JsCtx :=
  ⟨.ok .undefined, true, fun _ _ => .ok (.str (("DIRECT").data))⟩

/-- A URL whose host component is not extractable (as for a mailto URL). -/
def hostlessUrl : UrlModel := ⟨none, ("mailto:user@example.com").data⟩

/-! Helper lemmas about the decoder, shared by several claim theorems. -/

/-- decode succeeds exactly when every segment decodes. -/
theorem decodeAll_isOk (segs : List Str) :
    (decodeAll segs).isOk = segs.all (fun seg => (decodeSegment seg).isOk) := by
  induction segs with
  | nil => rfl
  | cons s rest ih =>
    rw [List.all_cons, ← ih]
    cases hs : decodeSegment s with
    | panic m => simp [decodeAll, hs, Res.isOk]
    | error e => simp [decodeAll, hs, Res.isOk]
    | ok v =>
      cases hr : decodeAll rest with
      | panic m => simp [decodeAll, hs, hr, Res.isOk]
      | error e => simp [decodeAll, hs, hr, Res.isOk]
      | ok vs => simp [decodeAll, hs, hr, Res.isOk]

/-- When every segment decodes, the whole decode is the per-segment results
in order. -/
theorem decodeAll_of_all_ok (segs : List Str)
    (h : segs.all (fun seg => (decodeSegment seg).isOk) = true) :
    decodeAll segs = .ok (segs.filterMap (fun seg => (decodeSegment seg).toOption)) := by
  induction segs with
  | nil => rfl
  | cons s rest ih =>
    simp only [List.all_cons, Bool.and_eq_true] at h
    obtain ⟨h1, h2⟩ := h
    cases hs : decodeSegment s with
    | panic m => rw [hs] at h1; simp [Res.isOk] at h1
    | error e => rw [hs] at h1; simp [Res.isOk] at h1
    | ok v =>
      simp [decodeAll, hs, ih h2, List.filterMap_cons, Res.toOption]

/-- A successful decode has one entry per segment. -/
theorem decodeAll_ok_length (segs : List Str) (l : List ProxyEntry)
    (h : decodeAll segs = .ok l) : l.length = segs.length := by
  induction segs generalizing l with
  | nil =>
    simp only [decodeAll] at h
    cases h
    rfl
  | cons s rest ih =>
    cases hs : decodeSegment s with
    | panic m => rw [decodeAll, hs] at h; cases h
    | error e => rw [decodeAll, hs] at h; cases h
    | ok v =>
      rw [decodeAll, hs] at h
      cases hr : decodeAll rest with
      | panic m => rw [hr] at h; cases h
      | error e => rw [hr] at h; cases h
      | ok vs =>
        rw [hr] at h
        cases h
        simp [ih vs hr]

/-- A segment that trims to nothing matches no token and decodes to the
"No type matched" error. -/
theorem decodeSegment_of_trim_nil (seg : Str) (h : trim seg = []) :
    decodeSegment seg = .error (.MalformedProxyEntry "No type matched") := by
  unfold decodeSegment
  rw [h]
  rfl

/-- The executable ends_with of the source agrees with the list suffix
relation. -/
theorem rustEndsWith_iff (s suffix : Str) :
    rustEndsWith s suffix = true ↔ suffix <:+ s := by
  unfold rustEndsWith
  rw [Bool.and_eq_true, decide_eq_true_iff, beq_iff_eq]
  constructor
  · rintro ⟨hle, hdrop⟩
    exact hdrop ▸ List.drop_suffix _ _
  · intro hsuf
    refine ⟨hsuf.length_le, ?_⟩
    obtain ⟨t, rfl⟩ := hsuf
    simp [List.length_append, Nat.add_sub_cancel, List.drop_left]

/-- On a list without duplicates every element occurs at most once. -/
theorem count_le_one_of_nodup (l : List Str) (h : l.Nodup) (a : Str) :
    l.count a ≤ 1 := by
  induction l with
  | nil => simp
  | cons x xs ih =>
    rw [List.nodup_cons] at h
    rw [List.count_cons]
    by_cases hx : (x == a) = true
    · have hxa : x = a := eq_of_beq hx
      have hnot : a ∉ xs := hxa ▸ h.1
      simp [hx, List.count_eq_zero.mpr hnot]
    · simpa [hx] using ih h.2

/-- A cache miss is exactly the absence of the key. -/
theorem get_eq_none_iff (c : RegexCache) (k : Str) :
    c.get k = none ↔ k ∉ c.cache.map Prod.fst := by
  unfold RegexCache.get
  rw [Option.map_eq_none', List.find?_eq_none]
  constructor
  · intro h hmem
    obtain ⟨p, hp, hpk⟩ := List.mem_map.mp hmem
    exact h p hp (by simp [hpk])
  · intro h p hp hbeq
    exact h (List.mem_map.mpr ⟨p, hp, eq_of_beq hbeq⟩)

/-! The claim theorems. -/

/-- C1: the decoder's fixed scan order tries SOCKS before SOCKS4 and SOCKS5,
so a segment beginning with the SOCKS5 (resp. SOCKS4) token decodes to the
generic Socks type with the version digit absorbed into the host - not to
Socks5/Socks4 as the specification requires. -/
theorem socks_token_naive_order :
    decode (("SOCKS5 h:1").data)
      = .ok [.Proxied .Socks (("5 h").data) (("1").data)]
    ∧ decode (("SOCKS4 h:1").data)
      = .ok [.Proxied .Socks (("4 h").data) (("1").data)]
    ∧ decode (("SOCKS5 h:1").data)
      ≠ .ok [.Proxied .Socks5 (("h").data) (("1").data)] := by
  decide

/-- C2: internal host-function failures do not all surface as script-level
errors: a dnsResolve whose lookup yields only IPv6 addresses hits todo! and
panics, and a wrong argument count hits unreachable! and panics, aborting
the host process; only the DNS lookup failure itself is rethrown as a
script-level error as the claim demands. -/
theorem host_function_panics :
    dns_resolve [.str (("ipv6only.example").data)] (.ok [.v6 (("::1").data)])
      = .panic "not yet implemented: handle ipv6"
    ∧ dns_resolve [] (.ok [])
      = .panic "internal error: entered unreachable code: expected one argument"
    ∧ dns_domain_is [.str (("x").data)]
      = .panic "internal error: entered unreachable code: expected two arguments"
    ∧ dns_resolve [.str (("h.example").data)] (.error "lookup failed")
      = .error "dns error: lookup failed" := by
  decide

/-- C3: a DIRECT segment with trailing non-whitespace does not produce the
MalformedProxyEntry error the claim states - it hits assert! and panics the
process. -/
theorem direct_trailing_panics :
    decode (("DIRECT extra").data) = .panic "DIRECT with host is not supported"
    ∧ (decode (("DIRECT extra").data)).isError = false := by
  decide

/-- C4 counterexample: a proxy-spec string containing a malformed segment
(here a DIRECT segment with trailing content) on which decoding does not
return an error for the call - it panics. No partial list is produced
either way. -/
theorem malformed_segment_panic_not_error :
    decode (("PROXY 1:2; DIRECT x").data) = .panic "DIRECT with host is not supported"
    ∧ (decode (("PROXY 1:2; DIRECT x").data)).isError = false := by
  decide

/-- C4 (amended): decoding never produces a partial list - it succeeds
exactly when every ';'-separated segment decodes (a malformed segment
yields a typed error, except a DIRECT segment with trailing content, which
panics), and a successful decode returns the per-segment entries in the
script-declared order, one per segment, duplicates permitted. -/
theorem decode_segmentwise (s : Str) :
    ((splitSemi s).all (fun seg => (decodeSegment seg).isOk) = true →
        decode s = .ok ((splitSemi s).filterMap (fun seg => (decodeSegment seg).toOption)))
    ∧ (decode s).isOk = (splitSemi s).all (fun seg => (decodeSegment seg).isOk)
    ∧ ∀ l : List ProxyEntry, decode s = .ok l → l.length = (splitSemi s).length := by
  exact ⟨fun h => decodeAll_of_all_ok _ h, decodeAll_isOk _,
    fun l hl => decodeAll_ok_length _ l hl⟩

/-- C4 witness: a well-formed two-segment string decodes to its per-segment
results. -/
theorem decode_segmentwise_witness :
    decode (("PROXY 1.2.3.4:8080; DIRECT").data)
      = .ok ((splitSemi (("PROXY 1.2.3.4:8080; DIRECT").data)).filterMap
          (fun seg => (decodeSegment seg).toOption)) :=
  (decode_segmentwise _).1 (by decide)

/-- C5: in singleton mode (modelled from the spec, see EngineSlot), while a
created engine holds the flag a second create fails with InUse, and after
the engine is released create succeeds again. -/
theorem singleton_create_inuse (s : EngineSlot) (h : s.inUse = false) :
    (createEngine s).fst = .engine
    ∧ (createEngine (createEngine s).snd).fst = .inUseErr
    ∧ (createEngine (releaseEngine (createEngine s).snd)).fst = .engine := by
  simp [createEngine, releaseEngine, h]

/-- C5 witness: the free slot admits a create, a second create fails InUse,
and a create after release succeeds. -/
theorem singleton_create_inuse_witness :
    (⟨false⟩ : EngineSlot).inUse = false
    ∧ ((createEngine ⟨false⟩).fst = .engine
      ∧ (createEngine (createEngine ⟨false⟩).snd).fst = .inUseErr
      ∧ (createEngine (releaseEngine (createEngine ⟨false⟩).snd)).fst = .engine) :=
  ⟨rfl, singleton_create_inuse ⟨false⟩ rfl⟩

/-- C6: on a URL without an extractable host, find_proxy returns the NoHost
error, the driver invocation log stays empty (the script is never called),
whatever the script engine would have answered. -/
theorem no_host_skips_script (ctx : JsCtx) (url : UrlModel)
    (h : url.hostStr = none) :
    find_proxy ctx url = (.error .NoHost, []) := by
  unfold find_proxy
  rw [h]

/-- C6 witness: the host-less URL makes find_proxy fail NoHost with no
driver call, against a stub engine that would have answered DIRECT. -/
theorem no_host_skips_script_witness :
    hostlessUrl.hostStr = none
    ∧ find_proxy stubCtx hostlessUrl = (.error .NoHost, []) :=
  ⟨rfl, no_host_skips_script stubCtx hostlessUrl rfl⟩

/-- C7: "DIRECT" decodes to exactly the Direct entry, and
"PROXY 1.2.3.4:80; DIRECT" decodes to the proxied entry (host and port the
unvalidated text around the first colon of the trimmed remainder) followed
by Direct. -/
theorem decode_direct_and_proxy :
    decode (("DIRECT").data) = .ok [.Direct]
    ∧ decode (("PROXY 1.2.3.4:80; DIRECT").data)
      = .ok [.Proxied .Proxy (("1.2.3.4").data) (("80").data), .Direct] := by
  decide

/-- C8: with a duplicate-free cache, two successive matches calls with the
same subject and pattern report the same result, leave at most one cache
entry under that raw pattern text, and on a miss the result is decided by
the matcher compiled from the pattern anchored at both ends. -/
theorem sh_exp_match_cached (eng : RegexEngine) (c0 : RegexCache) (s pat : Str)
    (h : (c0.cache.map Prod.fst).Nodup) :
    (twoCalls eng c0 s pat).1 = (twoCalls eng c0 s pat).2.1
    ∧ (twoCalls eng c0 s pat).2.2.countKey pat ≤ 1
    ∧ (c0.get pat = none → ∀ m : Matcher, eng.compile (anchored pat) = .ok m →
        (twoCalls eng c0 s pat).1 = .ok (m.isMatch s)) := by
  cases hget : c0.get pat with
  | some re =>
    have hm : RegexCache.matches eng c0 s pat = .ok (re.isMatch s, c0) := by
      unfold RegexCache.matches
      rw [hget]
    refine ⟨?_, ?_, ?_⟩
    · simp [twoCalls, hm, afterCache, resBool]
    · simpa [twoCalls, hm, afterCache, RegexCache.countKey]
        using count_le_one_of_nodup _ h pat
    · intro hnone
      exact Option.noConfusion hnone
  | none =>
    have hfind : c0.cache.find? (fun p => p.fst == pat) = none := by
      have h2 := hget
      unfold RegexCache.get at h2
      exact Option.map_eq_none'.mp h2
    have hzero : (c0.cache.map Prod.fst).count pat = 0 :=
      List.count_eq_zero.mpr ((get_eq_none_iff c0 pat).mp hget)
    cases hc : eng.compile (anchored pat) with
    | error err =>
      have hm : RegexCache.matches eng c0 s pat = .error ("regex error: " ++ err) := by
        unfold RegexCache.matches
        rw [hget, hc]
      refine ⟨?_, ?_, ?_⟩
      · simp [twoCalls, hm, afterCache, resBool]
      · simp [twoCalls, hm, afterCache, RegexCache.countKey, hzero]
      · intro _ m hcm
        exact Except.noConfusion hcm
    | ok m =>
      have hm : RegexCache.matches eng c0 s pat
          = .ok (m.isMatch s, c0.insertKV pat m) := by
        unfold RegexCache.matches
        rw [hget, hc]
      have hget2 : (c0.insertKV pat m).get pat = some m := by
        unfold RegexCache.get RegexCache.insertKV
        rw [List.find?_append, hfind]
        simp
      have hm2 : RegexCache.matches eng (c0.insertKV pat m) s pat
          = .ok (m.isMatch s, c0.insertKV pat m) := by
        unfold RegexCache.matches
        rw [hget2]
      refine ⟨?_, ?_, ?_⟩
      · simp [twoCalls, hm, hm2, afterCache, resBool]
      · have hcc : (twoCalls eng c0 s pat).2.2 = c0.insertKV pat m := by
          simp [twoCalls, hm, hm2, afterCache]
        rw [hcc]
        simp [RegexCache.countKey, RegexCache.insertKV, List.map_append,
          List.count_append, hzero]
      · intro _ m' hcm
        injection hcm with hmm
        subst hmm
        simp [twoCalls, hm, resBool, Except.map]

/-- C8 witness: against the literal-matching regex stub and the empty
cache, the two calls agree. -/
theorem sh_exp_match_cached_witness :
    (twoCalls litEngine emptyCache (("abc").data) (("a*c").data)).1
      = (twoCalls litEngine emptyCache (("abc").data) (("a*c").data)).2.1 :=
  (sh_exp_match_cached litEngine emptyCache (("abc").data) (("a*c").data)
    (by simp [emptyCache])).1

/-- C9: dnsDomainIs answers the raw ends_with of its two string-converted
arguments, ends_with agrees with the character-level suffix relation (no
normalization), and the canonical examples hold. -/
theorem dns_domain_is_suffix :
    (∀ host domain : Str,
        dns_domain_is [.str host, .str domain] = .ok (.bool (rustEndsWith host domain))
        ∧ (rustEndsWith host domain = true ↔ domain <:+ host))
    ∧ dns_domain_is [.str (("www.example.com").data), .str (("example.com").data)]
        = .ok (.bool true)
    ∧ dns_domain_is [.str (("example.com").data), .str (("www.example.com").data)]
        = .ok (.bool false) := by
  exact ⟨fun host domain => ⟨rfl, rustEndsWith_iff host domain⟩, by decide, by decide⟩

/-- C10 counterexample: "PROXY a;" contains an empty segment after
splitting and trimming, yet decoding fails with the "No colon in entry"
reason (the first segment fails first), not "No type matched". -/
theorem empty_segment_error_reason_differs :
    ((splitSemi (("PROXY a;").data)).any (fun seg => (trim seg).isEmpty)) = true
    ∧ decode (("PROXY a;").data) = .error (.MalformedProxyEntry "No colon in entry")
    ∧ decode (("PROXY a;").data) ≠ .error (.MalformedProxyEntry "No type matched") := by
  decide

/-- C10 (amended): a proxy-spec string with an empty segment after
splitting on ';' and trimming never decodes successfully - the empty
segment is not skipped - and when the empty segment is reached (as for the
empty string and for "DIRECT;") the failure is exactly
MalformedProxyEntry "No type matched". -/
theorem empty_segment_never_ok (s : Str) :
    ((splitSemi s).any (fun seg => (trim seg).isEmpty) = true → (decode s).isOk = false)
    ∧ decode [] = .error (.MalformedProxyEntry "No type matched")
    ∧ decode (("DIRECT;").data) = .error (.MalformedProxyEntry "No type matched") := by
  refine ⟨fun h => ?_, by decide, by decide⟩
  rw [decode, decodeAll_isOk]
  rw [List.any_eq_true] at h
  obtain ⟨seg, hmem, hempty⟩ := h
  rw [List.all_eq_false]
  refine ⟨seg, hmem, ?_⟩
  rw [decodeSegment_of_trim_nil seg (by simpa using hempty)]
  decide

/-- C10 witness: a string with a trailing semicolon does not decode. -/
theorem empty_segment_never_ok_witness :
    (decode (("DIRECT; ").data)).isOk = false :=
  (empty_segment_never_ok (("DIRECT; ").data)).1 (by decide)

end Pacparser
